import Mathlib

/-!
Shallow embedding of `src/merge_mining_client_tari.cpp` (p2pool's Tari
merge-mining client). Pure data is modelled with `List Nat` byte sequences;
the connection pool becomes explicit state passing over a client-indexed
state function. Collaborators that live outside this file's source
(`TCPServer` internals, the `is_paired` helper from the header, the `hash`
and `difficulty_type` emptiness tests) are modelled from the spec and
marked as such in their doc comments.
-/

namespace P2Pool

/-! ## Chain parameters and `get_params` -/

/-- Modelled from the spec: `ChainParameters` is `{aux_id: fixed 32-byte
value, aux_diff: opaque byte sequence}` (the struct itself is declared in a
header outside `src/`). Both fields are byte sequences here. -/
structure ChainParameters where
  aux_id : List Nat
  aux_diff : List Nat
  deriving DecidableEq, Repr

/-- Modelled from the spec: `aux_id` is a fixed 32-byte value that readers
"must treat as absent, never as zero-filled data" while unset — so its
`empty()` test holds exactly when the bytes are all zero. -/
def auxIdEmpty (h : List Nat) : Bool :=
  h.all (fun b => b == 0)

/-- Modelled from the spec: `aux_diff` is an opaque byte sequence; its
`empty()` test holds exactly when the sequence has no bytes. -/
def auxDiffEmpty (d : List Nat) : Bool :=
  d.isEmpty

/-- `MergeMiningClientTari::get_params` (src lines 93-103): under the read
lock, return absent when `aux_id` or `aux_diff` is empty, otherwise copy the
whole snapshot. Sequential model: the lock-held read is a pure function of
the current parameters. -/
def get_params (cp : ChainParameters) : Option ChainParameters :=
  if auxIdEmpty cp.aux_id || auxDiffEmpty cp.aux_diff then
    none
  else
    some cp

/-! ## The chain-id fetch job -/

/-- `HASH_SIZE` (32 bytes), from the spec: "the identifier must be exactly
32 bytes"; the constant itself is declared outside `src/`. -/
def HASH_SIZE : Nat := 32

/-- `merge_mining_get_chain_id` worker body (src lines 130-156): two RPC
calls whose `grpc::Status` results `s1`, `s2` are assigned but never read;
then, exactly when the returned identifier has size `HASH_SIZE`, the
identifier is copied into `aux_id` under the write lock. The returned `Bool`
records whether that publication branch was taken. -/
def merge_mining_get_chain_id (s1 s2 : Nat) (id : List Nat)
    (cp : ChainParameters) : Bool × ChainParameters :=
  let _ := s1
  let _ := s2
  if id.length = HASH_SIZE then
    (true, { cp with aux_id := id })
  else
    (false, cp)

/-! ## Host string validation (constructor, src lines 37-51) -/

/-- Outcome of the constructor's host-string validation. `rejected` is the
clean LOGERR-and-throw path; `outOfBoundsRead` marks the point where the
code evaluates `host.back()` on an empty string, an out-of-bounds read. -/
inductive HostParseResult where
  | rejected
  | outOfBoundsRead
  | ok (remainder : List Char)
  deriving DecidableEq, Repr

/-- The loop `while (host.back() == '/') host.pop_back();` viewed from the
back of the string (the input here is the reversed remainder). Reaching the
empty list means `back()` was evaluated on an empty string: `none`. -/
def stripSlashesRev : List Char → Option (List Char)
  | [] => none
  | c :: rest => if c = '/' then stripSlashesRev rest else some (c :: rest)

/-- Trailing-`'/'` stripping of the remainder, `none` when the loop reads
`back()` of an empty string. -/
def stripTrailingSlashes (h : List Char) : Option (List Char) :=
  (stripSlashesRev h.reverse).map List.reverse

/-- Constructor host validation (src lines 37-51): require the scheme
prefix at position 0 (`host.find(scheme) != 0` rejects), drop it, strip
trailing slashes, then reject an empty remainder. The scheme constant lives
in the header, so it is a parameter here. -/
def parseTariHost (scheme host : List Char) : HostParseResult :=
  if scheme.isPrefixOf host then
    match stripTrailingSlashes (host.drop scheme.length) with
    | none => .outOfBoundsRead
    | some r => if r.isEmpty then .rejected else .ok r
  else
    .rejected

/-! ## `submit_solution` -/

/-- Placeholder for the whole observable client state that `submit_solution`
could touch: the published parameters plus an opaque view of the proxy
server and connection state (`serverView`). -/
structure ClientObservableState where
  chainParams : ChainParameters
  serverView : List Nat
  deriving DecidableEq, Repr

/-- `MergeMiningClientTari::submit_solution` (src lines 105-109): the body
casts both arguments to void and does nothing. -/
def submit_solution (s : ClientObservableState) (blob : List Nat)
    (merkle_proof : List (List Nat)) : ClientObservableState :=
  let _ := blob
  let _ := merkle_proof
  s

/-! ## TariClient / TariServer connection state -/

/-- One `TariClient` (pooled proxy connection). `m_pairedClient` holds the
partner's index or `none` for `nullptr`. `m_pairedClientSavedResetCounter`
is `none` for the `UINT32_MAX` "unpaired" sentinel (modelled from the spec:
"invalidate ... to a sentinel 'unpaired' value" that a live epoch never
matches) and `some e` for a saved partner epoch `e`. `m_sendBuf` is the
byte sequence queued into this connection's outbound send path, and
`m_closed` records a `close()` call. -/
structure TariClient where
  m_owner : Bool
  m_pairedClient : Option Nat
  m_pairedClientSavedResetCounter : Option Nat
  m_resetCounter : Nat
  m_isV6 : Bool
  m_port : Nat
  m_addrString : String
  m_sendBuf : List Nat
  m_closed : Bool
  deriving DecidableEq, Repr

/-- `TariClient::TariClient()` (src lines 250-256): unpaired, saved counter
at the sentinel. -/
def TariClient.new : TariClient :=
  { m_owner := false
    m_pairedClient := none
    m_pairedClientSavedResetCounter := none
    m_resetCounter := 0
    m_isV6 := false
    m_port := 0
    m_addrString := ""
    m_sendBuf := []
    m_closed := false }

/-- The per-index view of all connection objects. -/
abbrev ClientPool : Type := Nat → TariClient

/-- Point update of one client. -/
def upd (s : ClientPool) (i : Nat) (f : TariClient → TariClient) :
    ClientPool :=
  fun j => if j = i then f (s j) else s j

/-- Modelled from the spec: `is_paired()` (declared in the header, outside
`src/`) holds when a partner is set and the stored partner epoch equals the
partner's current epoch — "its stored partner epoch does not match the
partner's live epoch" rejects the read. -/
def is_paired (s : ClientPool) (c : Nat) : Bool :=
  match (s c).m_pairedClient, (s c).m_pairedClientSavedResetCounter with
  | some p, some e => e == (s p).m_resetCounter
  | _, _ => false

/-- Modelled from the spec: `Client::close()` tears down exactly the closed
connection and releases it back to the pool, which "changes `own_reset_epoch`
every time the connection is released back to the pool". It touches no other
connection (its own pairing fields were already cleared by the caller). -/
def closeClient (s : ClientPool) (p : Nat) : ClientPool :=
  upd s p (fun t =>
    { t with m_closed := true, m_resetCounter := t.m_resetCounter + 1 })

/-- `TariClient::reset` (src lines 258-266): if paired, null the partner's
back-pointer, close the partner, null the own partner pointer; in all cases
set the saved counter to the sentinel. -/
def reset (s : ClientPool) (c : Nat) : ClientPool :=
  let s' :=
    if is_paired s c then
      match (s c).m_pairedClient with
      | some p =>
        let s1 := upd s p (fun t => { t with m_pairedClient := none })
        let s2 := closeClient s1 p
        upd s2 c (fun t => { t with m_pairedClient := none })
      | none => s
    else s
  upd s' c (fun t => { t with m_pairedClientSavedResetCounter := none })

/-- Modelled from the spec: `TCPServer::send` (outside `src/`) hands the
callback the internal callback buffer of capacity `cap`; "a forwarded read
that cannot be placed into the partner's send path fails immediately rather
than queuing", so a callback that writes no bytes fails the send, and
otherwise the written bytes are appended, unmodified and in order, to the
target's send path. -/
def tcpSend (s : ClientPool) (target : Nat) (cap : Nat)
    (cb : Nat → List Nat) : Bool × ClientPool :=
  let w := cb cap
  if w.isEmpty then
    (false, s)
  else
    (true, upd s target (fun t => { t with m_sendBuf := t.m_sendBuf ++ w }))

/-- `TariClient::on_read` (src lines 282-303): reject when the owner is
absent or the connection is not (validly) paired; otherwise forward via
`server->send` with the callback that copies all `size` bytes when they fit
in the buffer and writes nothing (`return 0U`) otherwise. `data` plays the
C++ `(data, size)` pair, so `size = data.length`. -/
def on_read (s : ClientPool) (c : Nat) (data : List Nat) (cap : Nat) :
    Bool × ClientPool :=
  if !(s c).m_owner then
    (false, s)
  else if !is_paired s c then
    (false, s)
  else
    match (s c).m_pairedClient with
    | none => (false, s)
    | some p =>
      tcpSend s p cap
        (fun buf_size => if data.length > buf_size then [] else data)

/-! ## TariServer: pool bookkeeping and `connect_upstream` -/

/-- `TariServer` state: the clients, the free list of pooled connection
indices, a fresh-index counter for lazy allocation, and the configured
remote endpoint (`m_TariNodeIsV6`, `m_TariNodeHost`, `m_TariNodePort`). -/
structure TariServerState where
  clients : ClientPool
  pool : List Nat
  next : Nat
  m_TariNodeIsV6 : Bool
  m_TariNodeHost : String
  m_TariNodePort : Nat

/-- Modelled from the spec: `TCPServer::get_client` (outside `src/`) pops a
pooled connection object, allocating a fresh one lazily when the pool is
empty. -/
def get_client (s : TariServerState) : Nat × TariServerState :=
  match s.pool with
  | u :: rest => (u, { s with pool := rest })
  | [] =>
    (s.next,
      { s with
        next := s.next + 1
        clients := upd s.clients s.next (fun _ => TariClient.new) })

/-- Modelled from the spec: `TCPServer::return_client` (outside `src/`)
releases the object back to the pool, which changes its reset epoch. -/
def return_client (s : TariServerState) (u : Nat) : TariServerState :=
  { s with
    pool := u :: s.pool
    clients :=
      upd s.clients u (fun t => { t with m_resetCounter := t.m_resetCounter + 1 }) }

/-- Modelled from the spec: `TCPServer::connect_to_peer` (outside `src/`)
attempts the outbound connect; the environment outcome is `ok`. On failure
the pooled object is released back to the pool ("on failure ... releases the
pooled outbound object back to the pool"); on success the connection is
registered with no observable field change here. -/
def connect_to_peer (s : TariServerState) (u : Nat) (ok : Bool) :
    Bool × TariServerState :=
  if ok then (true, s) else (false, return_client s u)

/-- `TariServer::connect_upstream` (src lines 203-239): pop an upstream from
the pool, set its owner/port/family, translate the address (`str_to_ip`,
environment outcome `strToIpOk`), format the address string, connect
(`connect_to_peer`, outcome `connectOk`), and on success link the pair with
each other's current reset counters. -/
def connect_upstream (s : TariServerState) (downstream : Nat)
    (strToIpOk connectOk : Bool) : Bool × TariServerState :=
  let is_v6 := s.m_TariNodeIsV6
  let ip := s.m_TariNodeHost
  let port := s.m_TariNodePort
  let gc := get_client s
  let u := gc.1
  let s1 := gc.2
  let s2 :=
    { s1 with
      clients := upd s1.clients u (fun t =>
        { t with m_owner := true, m_port := port, m_isV6 := is_v6 }) }
  if !strToIpOk then
    (false, return_client s2 u)
  else
    let addr :=
      if is_v6 then "[" ++ ip ++ "]:" ++ toString port
      else ip ++ ":" ++ toString port
    let s3 :=
      { s2 with
        clients := upd s2.clients u (fun t => { t with m_addrString := addr }) }
    let cp := connect_to_peer s3 u connectOk
    if !cp.1 then
      (false, cp.2)
    else
      let s4 := cp.2
      let s5 :=
        { s4 with
          clients := upd s4.clients u (fun t =>
            { t with
              m_pairedClient := some downstream
              m_pairedClientSavedResetCounter :=
                some ((s4.clients downstream).m_resetCounter) }) }
      let s6 :=
        { s5 with
          clients := upd s5.clients downstream (fun t =>
            { t with
              m_pairedClient := some u
              m_pairedClientSavedResetCounter :=
                some ((s5.clients u).m_resetCounter) }) }
      (true, s6)

/-! ## `TariServer::start` (src lines 178-201) -/

/-- The port candidate of one bind attempt (src line 183):
`49152 + (rd() % 16384)`, where `r` is the `std::random_device` draw. -/
def tariPort (r : Nat) : Nat := 49152 + r % 16384

/-- The bind loop of `TariServer::start` (src lines 182-186): at most `fuel`
further attempts starting at attempt index `i`; the first attempt whose
`start_listening` succeeds (environment oracle `bindOk`, with fresh random
draw `rs i`) fixes the listen port `tariPort (rs i)`; `none` models
`m_listenPort` staying negative after all attempts fail. -/
def bindLoop (rs : Nat → Nat) (bindOk : Nat → Bool) : Nat → Nat → Option Nat
  | _, 0 => none
  | i, fuel + 1 =>
    if bindOk i then some (tariPort (rs i)) else bindLoop rs bindOk (i + 1) fuel

/-- `TariServer::start` (src lines 178-201): up to 10 bind attempts on
`127.0.0.1`; returns failure if no attempt binds (`m_listenPort < 0`) or if
the event-loop thread fails to start (environment outcome `threadOk`).
Result: the returned success flag and the bound port, if any. -/
def TariServer.start (rs : Nat → Nat) (bindOk : Nat → Bool)
    (threadOk : Bool) : Bool × Option Nat :=
  match bindLoop rs bindOk 0 10 with
  | none => (false, none)
  | some p => (threadOk, some p)

/-- Concrete two-client pool used by the C4 witness: clients 0 and 1 are
paired with matching epochs. -/
def onReadWitnessPool : ClientPool := fun i =>
  if i = 0 then
    { TariClient.new with
      m_owner := true
      m_pairedClient := some 1
      m_pairedClientSavedResetCounter := some 0 }
  else if i = 1 then
    { TariClient.new with
      m_owner := true
      m_pairedClient := some 0
      m_pairedClientSavedResetCounter := some 0 }
  else TariClient.new

/-- Concrete server state used by the C5 and C6 witnesses: one pooled
connection object (index 5), downstream is index 0. -/
def pairingWitnessServer : TariServerState :=
  { clients := fun _ => TariClient.new
    pool := [5]
    next := 6
    m_TariNodeIsV6 := false
    m_TariNodeHost := "1.2.3.4"
    m_TariNodePort := 9000 }

end P2Pool

namespace P2Pool

/-! ## Theorems: C1, C2, C9, C10 -/

/-- C1: `get_params` returns absent iff `aux_id` or `aux_diff` is empty at
the time of the call; otherwise it returns the full snapshot unchanged, so
the caller observes `aux_id` and `aux_diff` from one simultaneous state. -/
theorem get_params_snapshot (cp : ChainParameters) :
    (get_params cp = none ↔
      (auxIdEmpty cp.aux_id = true ∨ auxDiffEmpty cp.aux_diff = true)) ∧
    (∀ out : ChainParameters, get_params cp = some out → out = cp) := by
  constructor
  · unfold get_params
    by_cases h1 : auxIdEmpty cp.aux_id = true
    · simp [h1]
    · by_cases h2 : auxDiffEmpty cp.aux_diff = true
      · simp [h1, h2]
      · simp [h1, h2]
  · intro out hout
    unfold get_params at hout
    by_cases h1 : auxIdEmpty cp.aux_id = true
    · simp [h1] at hout
    · by_cases h2 : auxDiffEmpty cp.aux_diff = true
      · simp [h1, h2] at hout
      · simp [h1, h2] at hout
        exact hout.symm

/-- Witness for C1 at a concrete snapshot with both fields non-empty. -/
theorem get_params_snapshot_witness :
    get_params ⟨[1, 2], [3]⟩ = some ⟨[1, 2], [3]⟩ :=
  have h := get_params_snapshot ⟨[1, 2], [3]⟩
  by
    rcases h with ⟨h1, h2⟩
    have : get_params ⟨[1, 2], [3]⟩ ≠ none := by
      intro hn
      rcases h1.mp hn with hc | hc <;> simp [auxIdEmpty, auxDiffEmpty] at hc
    cases hg : get_params ⟨[1, 2], [3]⟩ with
    | none => exact absurd hg this
    | some out => rw [h2 out hg]

/-- C2: the fetch job publishes `aux_id` iff the returned identifier has
length exactly 32; the two gRPC statuses have no influence on the result,
and a non-32-byte identifier leaves the parameters untouched. -/
theorem chain_id_publication (s1 s2 t1 t2 : Nat) (id : List Nat)
    (cp : ChainParameters) :
    merge_mining_get_chain_id s1 s2 id cp
      = merge_mining_get_chain_id t1 t2 id cp ∧
    ((merge_mining_get_chain_id s1 s2 id cp).1 = true ↔
      id.length = HASH_SIZE) ∧
    (id.length = HASH_SIZE →
      (merge_mining_get_chain_id s1 s2 id cp).2 = { cp with aux_id := id }) ∧
    (id.length ≠ HASH_SIZE →
      (merge_mining_get_chain_id s1 s2 id cp).2 = cp) := by
  unfold merge_mining_get_chain_id
  by_cases h : id.length = HASH_SIZE <;> simp [h]

/-- Witness for C2 at a concrete 32-byte identifier and at a 31-byte one. -/
theorem chain_id_publication_witness :
    (merge_mining_get_chain_id 0 7 (List.replicate 32 5) ⟨[], []⟩).2
      = { aux_id := List.replicate 32 5, aux_diff := [] } ∧
    (merge_mining_get_chain_id 0 7 (List.replicate 31 5) ⟨[], []⟩).2
      = ⟨[], []⟩ := by
  constructor
  · exact (chain_id_publication 0 7 1 2 (List.replicate 32 5) ⟨[], []⟩).2.2.1
      (by decide)
  · exact (chain_id_publication 0 7 1 2 (List.replicate 31 5) ⟨[], []⟩).2.2.2
      (by decide)

/-- C9 (code bug): on the host string consisting of the scheme alone, the
remainder is empty and the stripping loop evaluates `host.back()` on an
empty string — an out-of-bounds read — before the emptiness rejection is
ever reached. -/
theorem host_empty_remainder_oob :
    parseTariHost "tari://".toList "tari://".toList
      = HostParseResult.outOfBoundsRead ∧
    parseTariHost "tari://".toList "tari:///".toList
      = HostParseResult.outOfBoundsRead := by
  constructor <;> rfl

/-- C10: `submit_solution` leaves the entire observable client state —
published chain parameters, server, connection state — unchanged for every
blob and merkle proof. -/
theorem submit_solution_frame (s : ClientObservableState) (blob : List Nat)
    (merkle_proof : List (List Nat)) :
    submit_solution s blob merkle_proof = s :=
  rfl

/-! ## Theorems: C3, C4, C8 -/

/-- C3: a read on a connection that is not paired, or whose stored partner
epoch does not equal the partner's current epoch, is rejected (`on_read`
returns failure) and the state is unchanged — no bytes reach the object in
the former partner's pooled slot. -/
theorem on_read_stale_guard (s : ClientPool) (c : Nat) (data : List Nat)
    (cap : Nat)
    (h : (s c).m_pairedClient = none ∨
      ∃ p, (s c).m_pairedClient = some p ∧
        (s c).m_pairedClientSavedResetCounter ≠ some ((s p).m_resetCounter)) :
    on_read s c data cap = (false, s) := by
  have hp : is_paired s c = false := by
    unfold is_paired
    rcases h with h | ⟨p, hp1, hp2⟩
    · simp [h]
    · rw [hp1]
      cases he : (s c).m_pairedClientSavedResetCounter with
      | none => rfl
      | some e =>
        have hne : e ≠ (s p).m_resetCounter := by
          intro hcontra
          exact hp2 (by rw [he, hcontra])
        simp [hne]
  unfold on_read
  cases howner : (s c).m_owner with
  | false => simp
  | true => simp [hp]

/-- Witness for C3 on a pool of fresh (unpaired) connections. -/
theorem on_read_stale_guard_witness :
    on_read (fun _ => TariClient.new) 0 [1, 2] 10
      = (false, fun _ => TariClient.new) :=
  on_read_stale_guard (fun _ => TariClient.new) 0 [1, 2] 10 (Or.inl rfl)

/-- C4: a read on a validly paired connection either forwards exactly the
payload, byte-for-byte and in order, to the partner's send buffer and
succeeds, or — when the payload exceeds the callback buffer capacity —
forwards nothing and fails. No partial forwarding occurs. -/
theorem on_read_forwarding (s : ClientPool) (c p : Nat) (data : List Nat)
    (cap : Nat)
    (howner : (s c).m_owner = true)
    (hp : (s c).m_pairedClient = some p)
    (hpair : is_paired s c = true)
    (hpos : data ≠ []) :
    (data.length ≤ cap →
      on_read s c data cap =
        (true, upd s p (fun t => { t with m_sendBuf := t.m_sendBuf ++ data }))) ∧
    (cap < data.length → on_read s c data cap = (false, s)) := by
  unfold on_read tcpSend
  rw [howner, hpair, hp]
  constructor
  · intro hle
    have hnotgt : ¬ (data.length > cap) := not_lt.mpr hle
    simp [hnotgt, hpos]
  · intro hlt
    have hgt : data.length > cap := hlt
    simp [hgt]

/-- Witness for C4: two fresh connections paired with each other, a 2-byte
payload, capacity 4 (forwarded) and capacity 1 (rejected). -/
theorem on_read_forwarding_witness :
    (on_read onReadWitnessPool 0 [7, 9] 4 =
      (true, upd onReadWitnessPool 1
        (fun t => { t with m_sendBuf := t.m_sendBuf ++ [7, 9] }))) ∧
    on_read onReadWitnessPool 0 [7, 9] 1 = (false, onReadWitnessPool) := by
  constructor
  · exact (on_read_forwarding onReadWitnessPool 0 1 [7, 9] 4 rfl rfl rfl
      (by decide)).1 (by decide)
  · exact (on_read_forwarding onReadWitnessPool 0 1 [7, 9] 1 rfl rfl rfl
      (by decide)).2 (by decide)

/-- After any `reset`, the saved partner counter is back at the sentinel. -/
theorem reset_self_saved (s : ClientPool) (c : Nat) :
    ((reset s c) c).m_pairedClientSavedResetCounter = none := by
  unfold reset
  simp [upd]

/-- After any `reset`, the connection is no longer (validly) paired. -/
theorem is_paired_reset_self (s : ClientPool) (c : Nat) :
    is_paired (reset s c) c = false := by
  unfold is_paired
  rw [reset_self_saved]
  cases h : ((reset s c) c).m_pairedClient <;> rfl

/-- A `reset` of an unpaired connection changes only that connection. -/
theorem reset_unpaired_frame (s : ClientPool) (c t : Nat) (hne : t ≠ c)
    (hnp : is_paired s c = false) : reset s c t = s t := by
  unfold reset
  simp [hnp, upd, hne]

/-- C8: `reset` is idempotent with respect to third connections — resetting
an already-unpaired connection changes no other connection's state, and a
second `reset` of the same connection changes no connection other than the
one being reset (so no further unpairing or closing of any third
connection). -/
theorem reset_third_connection_frame (s : ClientPool) (c t : Nat)
    (hne : t ≠ c) :
    (is_paired s c = false → reset s c t = s t) ∧
    reset (reset s c) c t = reset s c t :=
  ⟨fun hnp => reset_unpaired_frame s c t hne hnp,
    reset_unpaired_frame (reset s c) c t hne (is_paired_reset_self s c)⟩

/-- Witness for C8 on a pool of fresh connections, third connection 2. -/
theorem reset_third_connection_frame_witness :
    reset (fun _ => TariClient.new) 0 2 = TariClient.new ∧
    reset (reset (fun _ => TariClient.new) 0) 0 2
      = reset (fun _ => TariClient.new) 0 2 := by
  have h := reset_third_connection_frame (fun _ => TariClient.new) 0 2
    (by decide)
  exact ⟨h.1 rfl, h.2⟩

/-! ## Theorems: C5, C6 -/

/-- `get_client` leaves every client other than the popped/allocated one
unchanged. -/
theorem get_client_clients_other (s : TariServerState) (d : Nat)
    (hne : (get_client s).1 ≠ d) :
    (get_client s).2.clients d = s.clients d := by
  rcases hpool : s.pool with _ | ⟨u, rest⟩
  · simp [get_client, hpool] at hne ⊢
    simp [upd]
    intro hd
    exact absurd hd.symm hne
  · simp [get_client, hpool]

/-- C5: after every successful `connect_upstream(downstream)`, pairing is
symmetric — the downstream's partner is the chosen upstream and vice versa —
and each side's saved partner epoch equals the reset counter the other side
holds at pairing time. -/
theorem connect_upstream_pairing (s : TariServerState) (d : Nat)
    (ok1 ok2 : Bool)
    (hne : (get_client s).1 ≠ d)
    (hsucc : (connect_upstream s d ok1 ok2).1 = true) :
    ((connect_upstream s d ok1 ok2).2.clients d).m_pairedClient
      = some (get_client s).1 ∧
    ((connect_upstream s d ok1 ok2).2.clients (get_client s).1).m_pairedClient
      = some d ∧
    ((connect_upstream s d ok1 ok2).2.clients
        (get_client s).1).m_pairedClientSavedResetCounter
      = some (((connect_upstream s d ok1 ok2).2.clients d).m_resetCounter) ∧
    ((connect_upstream s d ok1 ok2).2.clients
        d).m_pairedClientSavedResetCounter
      = some (((connect_upstream s d ok1 ok2).2.clients
          (get_client s).1).m_resetCounter) := by
  have hd : ¬ (d = (get_client s).1) := fun h => hne h.symm
  have hok1 : ok1 = true := by
    cases h1 : ok1 with
    | true => rfl
    | false =>
      rw [h1] at hsucc
      simp [connect_upstream] at hsucc
  have hok2 : ok2 = true := by
    cases h2 : ok2 with
    | true => rfl
    | false =>
      rw [hok1, h2] at hsucc
      simp [connect_upstream, connect_to_peer] at hsucc
  subst hok1
  subst hok2
  refine ⟨?_, ?_, ?_, ?_⟩ <;>
    simp [connect_upstream, connect_to_peer, upd, hne, hd]

/-- Witness for C5: concrete server, downstream 0, pooled upstream 5. -/
theorem connect_upstream_pairing_witness :
    ((connect_upstream pairingWitnessServer 0 true true).2.clients
        0).m_pairedClient = some 5 ∧
    ((connect_upstream pairingWitnessServer 0 true true).2.clients
        5).m_pairedClient = some 0 := by
  have h := connect_upstream_pairing pairingWitnessServer 0 true true
    (by decide) rfl
  exact ⟨h.1, h.2.1⟩

/-- C6: on every failing `connect_upstream` — whether `str_to_ip` or
`connect_to_peer` fails — the call returns failure (the downstream is
rejected for its caller to close), the pooled upstream object is back in the
pool, and the downstream connection is untouched; no retry happens (the
single attempt's result is final). -/
theorem connect_upstream_failure (s : TariServerState) (d : Nat)
    (ok1 ok2 : Bool)
    (hne : (get_client s).1 ≠ d)
    (h : ok1 = false ∨ ok2 = false) :
    (connect_upstream s d ok1 ok2).1 = false ∧
    (get_client s).1 ∈ (connect_upstream s d ok1 ok2).2.pool ∧
    (connect_upstream s d ok1 ok2).2.clients d = s.clients d := by
  have hd : ¬ (d = (get_client s).1) := fun hh => hne hh.symm
  have hbase := get_client_clients_other s d hne
  rcases h with h1 | h2
  · subst h1
    refine ⟨by simp [connect_upstream], ?_, ?_⟩
    · simp [connect_upstream, return_client]
    · simp [connect_upstream, return_client, upd, hd]
      exact hbase
  · cases h1 : ok1 with
    | false =>
      refine ⟨by simp [connect_upstream], ?_, ?_⟩
      · simp [connect_upstream, return_client]
      · simp [connect_upstream, return_client, upd, hd]
        exact hbase
    | true =>
      subst h2
      refine ⟨by simp [connect_upstream, connect_to_peer], ?_, ?_⟩
      · simp [connect_upstream, connect_to_peer, return_client]
      · simp [connect_upstream, connect_to_peer, return_client, upd, hd]
        exact hbase

/-- Witness for C6: the address-translation failure path on the concrete
server. -/
theorem connect_upstream_failure_witness :
    (connect_upstream pairingWitnessServer 0 false true).1 = false ∧
    5 ∈ (connect_upstream pairingWitnessServer 0 false true).2.pool ∧
    (connect_upstream pairingWitnessServer 0 false true).2.clients 0
      = pairingWitnessServer.clients 0 :=
  connect_upstream_failure pairingWitnessServer 0 false true (by decide)
    (Or.inl rfl)

/-! ## Theorems: C7 -/

/-- Characterization of the bind loop: it returns `none` exactly when every
attempt in its budget fails, and a returned port is the candidate of some
successful attempt within the budget. -/
theorem bindLoop_spec (rs : Nat → Nat) (bindOk : Nat → Bool) :
    ∀ fuel i,
      ((bindLoop rs bindOk i fuel = none) ↔
        ∀ j, j < fuel → bindOk (i + j) = false) ∧
      (∀ p, bindLoop rs bindOk i fuel = some p →
        ∃ j, j < fuel ∧ bindOk (i + j) = true ∧ p = tariPort (rs (i + j))) := by
  intro fuel
  induction fuel with
  | zero =>
    intro i
    constructor
    · simp [bindLoop]
    · intro p hp
      simp [bindLoop] at hp
  | succ n ih =>
    intro i
    constructor
    · cases hb : bindOk i with
      | true =>
        simp [bindLoop, hb]
        exact ⟨0, by omega, by simpa using hb⟩
      | false =>
        have hred : bindLoop rs bindOk i (n + 1) = bindLoop rs bindOk (i + 1) n := by
          simp [bindLoop, hb]
        rw [hred, (ih (i + 1)).1]
        constructor
        · intro hall j hj
          cases j with
          | zero => simpa using hb
          | succ k =>
            have : i + (k + 1) = (i + 1) + k := by omega
            rw [this]
            exact hall k (by omega)
        · intro hall j hj
          have : (i + 1) + j = i + (j + 1) := by omega
          rw [this]
          exact hall (j + 1) (by omega)
    · intro p hp
      cases hb : bindOk i with
      | true =>
        simp [bindLoop, hb] at hp
        exact ⟨0, by omega, by simpa using hb, by simpa using hp.symm⟩
      | false =>
        have hred : bindLoop rs bindOk i (n + 1) = bindLoop rs bindOk (i + 1) n := by
          simp [bindLoop, hb]
        rw [hred] at hp
        obtain ⟨j, hj, hok, hport⟩ := (ih (i + 1)).2 p hp
        refine ⟨j + 1, by omega, ?_, ?_⟩
        · have : i + (j + 1) = (i + 1) + j := by omega
          rw [this]; exact hok
        · have : i + (j + 1) = (i + 1) + j := by omega
          rw [this]; exact hport

/-- C7 counterexample: a successful `start` whose bound port is 65535, which
lies outside the claimed half-open interval `[49152, 65535)` — the code's
candidate `49152 + rd() % 16384` reaches 65535. -/
theorem start_port_counterexample :
    TariServer.start (fun _ => 16383) (fun _ => true) true
      = (true, some 65535) ∧ ¬ (65535 < 65535) := by
  constructor
  · rfl
  · decide

/-- C7 amended: every `start` makes at most 10 bind attempts (the success
condition only consults attempts with index below 10), each candidate port
lies in the inclusive range `[49152, 65535]` (that is, `[49152, 65536)`),
`start` succeeds exactly when some attempt within the budget binds and the
event-loop thread starts, and any bound port is one attempt's candidate. -/
theorem start_port_budget (rs : Nat → Nat) (bindOk : Nat → Bool)
    (threadOk : Bool) :
    (∀ r, 49152 ≤ tariPort r ∧ tariPort r < 65536) ∧
    ((TariServer.start rs bindOk threadOk).1 = true ↔
      (∃ i, i < 10 ∧ bindOk i = true) ∧ threadOk = true) ∧
    (∀ p, (TariServer.start rs bindOk threadOk).2 = some p →
      ∃ i, i < 10 ∧ bindOk i = true ∧ p = tariPort (rs i)) := by
  refine ⟨?_, ?_, ?_⟩
  · intro r
    unfold tariPort
    have : r % 16384 < 16384 := Nat.mod_lt _ (by decide)
    omega
  · unfold TariServer.start
    cases hb : bindLoop rs bindOk 0 10 with
    | none =>
      have hall := (bindLoop_spec rs bindOk 10 0).1.mp hb
      simp only []
      constructor
      · intro hfalse
        simp at hfalse
      · rintro ⟨⟨i, hi, hoki⟩, _⟩
        have := hall i hi
        rw [Nat.zero_add] at this
        rw [hoki] at this
        cases this
    | some p =>
      have hsome := (bindLoop_spec rs bindOk 10 0).2 p hb
      obtain ⟨j, hj, hok, _⟩ := hsome
      simp only []
      constructor
      · intro ht
        exact ⟨⟨j, hj, by simpa using hok⟩, ht⟩
      · rintro ⟨_, ht⟩
        exact ht
  · intro p hp
    unfold TariServer.start at hp
    cases hb : bindLoop rs bindOk 0 10 with
    | none => rw [hb] at hp; cases hp
    | some q =>
      rw [hb] at hp
      have hq : q = p := by
        cases hp
        rfl
      obtain ⟨j, hj, hok, hport⟩ := (bindLoop_spec rs bindOk 10 0).2 q hb
      exact ⟨j, hj, by simpa using hok, by rw [← hq]; simpa using hport⟩

/-- Witness for the amended C7: bind succeeds on the third attempt within
the 10-attempt budget, the thread starts, and `start` reports success with
that attempt's candidate port. -/
theorem start_port_budget_witness :
    (TariServer.start (fun _ => 7) (fun i => decide (i = 2)) true).1 = true ∧
    (TariServer.start (fun _ => 7) (fun i => decide (i = 2)) true).2
      = some (tariPort 7) := by
  have h := start_port_budget (fun _ => 7) (fun i => decide (i = 2)) true
  refine ⟨h.2.1.mpr ⟨⟨2, by decide, by decide⟩, rfl⟩, ?_⟩
  rfl

end P2Pool
